import Mathlib

/-!
Verification of the 6502 CPU core in `src/cpu.rs` of the NES_Emulator_rust
repository.  The Rust code is shallowly embedded: machine integers become
`Nat` with explicit reductions modulo `2^8` / `2^16` at the points where the
Rust types force truncation, fallible operations (array indexing that can
panic, lookups that can fail, `todo!()` arms) return `Option`.

Modelling conventions:
* `u8.wrapping_add` / `wrapping_sub` become `wadd8` / `wsub8`, the u16
  versions `wadd16` / `wsub16`.  The unchecked `+` on `u16` program-counter
  arithmetic in the source is modelled by its release-profile wraparound
  behaviour (`wadd16`); the debug-profile overflow panic is discussed where
  a claim depends on it.
* The memory field of the Rust struct is `memory: [u8; 0xFFFF]` — an array
  of 0xFFFF = 65535 bytes, so the valid indices are 0 ..= 0xFFFE and
  indexing with `addr as usize` panics for `addr = 0xFFFF`.  `mem_read` /
  `mem_write` therefore return `none` exactly for address 0xFFFF.
-/

/-- Status flag bit: Carry (`CPUFlags::CARRY`). -/
def CARRY : Nat := 0x01

/-- Status flag bit: Zero (`CPUFlags::ZERO`). -/
def ZERO : Nat := 0x02

/-- Status flag bit: Interrupt disable. -/
def INTERRUPT_DISABLE : Nat := 0x04

/-- Status flag bit: Decimal mode. -/
def DECIMAL_MODE : Nat := 0x08

/-- Status flag bit: Break (`CPUFlags::BREAK`). -/
def BREAK : Nat := 0x10

/-- Status flag bit: Unused (`CPUFlags::UNUSED`). -/
def UNUSED : Nat := 0x20

/-- Status flag bit: Overflow (`CPUFlags::OVERFLOW`). -/
def OVERFLOW : Nat := 0x40

/-- Status flag bit: Negative (`CPUFlags::NEGATIVE`). -/
def NEGATIVE : Nat := 0x80

/-- `const STACK : u16 = 0x0100`. -/
def STACK : Nat := 0x0100

/-- `const STACK_RESET : u8 = 0xFD`. -/
def STACK_RESET : Nat := 0xFD

/-- `u8` wrapping addition. -/
def wadd8 (a b : Nat) : Nat := (a + b) % 256

/-- `u8` wrapping subtraction. -/
def wsub8 (a b : Nat) : Nat := (a + (256 - b % 256)) % 256

/-- `u16` wrapping addition. -/
def wadd16 (a b : Nat) : Nat := (a + b) % 65536

/-- `u16` wrapping subtraction. -/
def wsub16 (a b : Nat) : Nat := (a + (65536 - b % 65536)) % 65536

/-- The addressing-mode enumeration of `cpu.rs`. -/
inductive AddressingMode where
  | Immediate
  | ZeroPage
  | ZeroPage_X
  | ZeroPage_Y
  | Absolute
  | Absolute_X
  | Absolute_Y
  | Indirect_X
  | Indirect_Y
  | NoneAddressing

/-- The `CPU` struct of `cpu.rs`.  Registers are bytes, the program counter
is a `u16`, and `memory` is the (0xFFFF-byte) backing array, represented as
a function from addresses to stored values. -/
structure CPU where
  register_a : Nat
  register_x : Nat
  register_y : Nat
  status : Nat
  program_counter : Nat
  stack_pointer : Nat
  memory : Nat → Nat

/-- `bitflags` `contains` for a one-bit flag: `bits & flag == flag`. -/
def containsFlag (st f : Nat) : Bool := st &&& f == f

/-- `bitflags` `insert`: `bits |= flag`. -/
def insertFlag (st f : Nat) : Nat := st ||| f

/-- `bitflags` `remove`: `bits &= !flag`, with the `u8` complement of a
flag below 256 written as `255 ^^^ f`. -/
def removeFlag (st f : Nat) : Nat := st &&& (255 ^^^ f)

/-- `bitflags` `set`: insert when the condition holds, remove otherwise. -/
def setFlag (st f : Nat) (b : Bool) : Nat :=
  if b then insertFlag st f else removeFlag st f

/-- `mem_read`: `self.memory[addr as usize]`.  The backing array has
0xFFFF entries, so index 0xFFFF is out of bounds (a panic, modelled as
`none`). -/
def mem_read (s : CPU) (addr : Nat) : Option Nat :=
  if addr < 0xFFFF then some (s.memory addr) else none

/-- `mem_write`: `self.memory[addr as usize] = value`, with the same
bounds behaviour as `mem_read`. -/
def mem_write (s : CPU) (addr value : Nat) : Option CPU :=
  if addr < 0xFFFF then
    some { s with memory := fun a => if a = addr then value else s.memory a }
  else none

/-- `mem_read_u16`: little-endian 16-bit read, low byte at `pos`, high
byte at `pos + 1`. -/
def mem_read_u16 (s : CPU) (pos : Nat) : Option Nat := do
  let lo ← mem_read s pos
  let hi ← mem_read s (pos + 1)
  some ((hi <<< 8) ||| lo)

/-- `update_zero_and_negative_flags`: Zero from `result == 0`, Negative
from bit 7 of `result`. -/
def update_zero_and_negative_flags (status result : Nat) : Nat :=
  let st := if result = 0 then insertFlag status ZERO else removeFlag status ZERO
  if result &&& 0b10000000 ≠ 0 then insertFlag st NEGATIVE else removeFlag st NEGATIVE

/-- `set_register_a`: store the value and update Zero/Negative from it. -/
def set_register_a (s : CPU) (value : Nat) : CPU :=
  { s with register_a := value,
           status := update_zero_and_negative_flags s.status value }

/-- `set_carry_flag`. -/
def set_carry_flag (s : CPU) : CPU := { s with status := insertFlag s.status CARRY }

/-- `clear_carry_flag`. -/
def clear_carry_flag (s : CPU) : CPU := { s with status := removeFlag s.status CARRY }

/-- `add_to_register_a`: 16-bit intermediate sum of accumulator, operand
and carry-in, truncated to 8 bits; Overflow from
`(data ^ result) & (result ^ register_a) & 0x80`; the result stored via
`set_register_a`.  (The source contains no update of the Carry flag.) -/
def add_to_register_a (s : CPU) (data : Nat) : CPU :=
  let sum := s.register_a + data + (if containsFlag s.status CARRY then 1 else 0)
  let result := sum % 256
  let s1 := if (data ^^^ result) &&& (result ^^^ s.register_a) &&& 0x80 ≠ 0
    then { s with status := insertFlag s.status OVERFLOW }
    else { s with status := removeFlag s.status OVERFLOW }
  set_register_a s1 result

/-- `get_operand_address`: effective-address computation per addressing
mode; `NoneAddressing` panics in the source (`none` here). -/
def get_operand_address (s : CPU) : AddressingMode → Option Nat
  | AddressingMode.Immediate => some s.program_counter
  | AddressingMode.ZeroPage => mem_read s s.program_counter
  | AddressingMode.ZeroPage_X => do
      let pos ← mem_read s s.program_counter
      some (wadd8 pos s.register_x)
  | AddressingMode.ZeroPage_Y => do
      let pos ← mem_read s s.program_counter
      some (wadd8 pos s.register_y)
  | AddressingMode.Absolute => mem_read_u16 s s.program_counter
  | AddressingMode.Absolute_X => do
      let base ← mem_read_u16 s s.program_counter
      some (wadd16 base s.register_x)
  | AddressingMode.Absolute_Y => do
      let base ← mem_read_u16 s s.program_counter
      some (wadd16 base s.register_y)
  | AddressingMode.Indirect_X => do
      let base ← mem_read s s.program_counter
      let ptr := wadd8 base s.register_x
      let lo ← mem_read s ptr
      let hi ← mem_read s (wadd8 ptr 1)
      some ((hi <<< 8) ||| lo)
  | AddressingMode.Indirect_Y => do
      let base ← mem_read s s.program_counter
      let lo ← mem_read s base
      let hi ← mem_read s (wadd8 base 1)
      some (wadd16 ((hi <<< 8) ||| lo) s.register_y)
  | AddressingMode.NoneAddressing => none

/-- `ldy`. -/
def ldy (s : CPU) (mode : AddressingMode) : Option CPU := do
  let addr ← get_operand_address s mode
  let data ← mem_read s addr
  some { s with register_y := data,
                status := update_zero_and_negative_flags s.status data }

/-- `ldx`.  Note: the source calls
`self.update_zero_and_negative_flags(self.register_y)`, i.e. the flags are
computed from register Y, not from the just-loaded X value. -/
def ldx (s : CPU) (mode : AddressingMode) : Option CPU := do
  let addr ← get_operand_address s mode
  let data ← mem_read s addr
  some { s with register_x := data,
                status := update_zero_and_negative_flags s.status s.register_y }

/-- `lda`. -/
def lda (s : CPU) (mode : AddressingMode) : Option CPU := do
  let addr ← get_operand_address s mode
  let value ← mem_read s addr
  some (set_register_a s value)

/-- `sta`. -/
def sta (s : CPU) (mode : AddressingMode) : Option CPU := do
  let addr ← get_operand_address s mode
  mem_write s addr s.register_a

/-- A CPU value with all registers and memory zero, used as a base for
concrete test states. -/
def cpu0 : CPU :=
  { register_a := 0, register_x := 0, register_y := 0, status := 0,
    program_counter := 0, stack_pointer := 0, memory := fun _ => 0 }

/-- Concrete state for the ADC carry check: accumulator 0x80, status 0
(carry-in 0). -/
def cpuC1 : CPU := { cpu0 with register_a := 0x80 }

/-- C1: the claim requires ADC to set the Carry flag iff a + b + c ≥ 256.
At a = 0x80, b = 0x80, carry-in c = 0 we have a + b + c = 256 ≥ 256, and
the accumulator correctly becomes (a + b + c) mod 256 = 0, but the Carry
flag stays clear: `add_to_register_a` in the source never updates Carry at
all, contradicting the spec sentence that ADC "sets Carry from the 9th
bit". -/
theorem adc_carry_not_set_at_0x80_0x80 :
    (add_to_register_a cpuC1 0x80).register_a = 0 ∧
    containsFlag (add_to_register_a cpuC1 0x80).status CARRY = false ∧
    containsFlag (add_to_register_a cpuC1 0x80).status OVERFLOW = true := by
  decide

/-- C2: the claim states every 16-bit address 0x0000 ..= 0xFFFF is in
bounds.  The backing array is `[u8; 0xFFFF]` (65535 bytes), so address
0xFFFE is the last valid index and reading or writing address 0xFFFF is
out of bounds (a Rust index panic, `none` in the model). -/
theorem mem_access_at_0xFFFF_out_of_bounds :
    mem_read cpu0 0xFFFE = some 0 ∧
    mem_read cpu0 0xFFFF = none ∧
    mem_write cpu0 0xFFFF 0 = none := by
  refine ⟨rfl, rfl, rfl⟩

/-- Concrete state for the LDX flag check: every memory cell holds 0x80,
register Y is 0. -/
def cpuC3 : CPU := { cpu0 with memory := fun _ => 0x80 }

/-- C3: the claim requires LDX to set Zero/Negative from the loaded value.
Loading X with 0x80 (immediate operand) while register Y is 0 must give
Zero clear and Negative set; the source instead passes `self.register_y`
to `update_zero_and_negative_flags`, producing Zero set and Negative
clear. -/
theorem ldx_flags_come_from_register_y :
    (ldx cpuC3 AddressingMode.Immediate).map
      (fun s => (s.register_x, containsFlag s.status ZERO, containsFlag s.status NEGATIVE))
      = some (0x80, true, false) := by
  decide

/-- `stack_pop`: increment the stack pointer (with `u8` wraparound), then
read the byte at `STACK + stack_pointer`.  Returns the byte together with
the updated state. -/
def stack_pop (s : CPU) : Option (Nat × CPU) :=
  let s1 : CPU := { s with stack_pointer := wadd8 s.stack_pointer 1 }
  (mem_read s1 (STACK + s1.stack_pointer)).map (fun v => (v, s1))

/-- `stack_push`: write the byte at `STACK + stack_pointer`, then
decrement the stack pointer with `u8` wraparound. -/
def stack_push (s : CPU) (data : Nat) : Option CPU :=
  (mem_write s (STACK + s.stack_pointer) data).map
    (fun s1 => { s1 with stack_pointer := wsub8 s1.stack_pointer 1 })

/-- `stack_pop_u16`: pop low byte, pop high byte, combine. -/
def stack_pop_u16 (s : CPU) : Option (Nat × CPU) := do
  let (lo, s1) ← stack_pop s
  let (hi, s2) ← stack_pop s1
  some ((hi <<< 8) ||| lo, s2)

/-- `stack_push_u16`: push high byte, then low byte. -/
def stack_push_u16 (s : CPU) (data : Nat) : Option CPU := do
  let s1 ← stack_push s ((data >>> 8) % 256)
  stack_push s1 (data &&& 0xFF)

/-- `pla`: pop a byte and store it via `set_register_a`. -/
def pla (s : CPU) : Option CPU :=
  (stack_pop s).map (fun p => set_register_a p.2 p.1)

/-- `plp`: pop the status byte, then remove Break and remove Unused from
the live register. -/
def plp (s : CPU) : Option CPU :=
  (stack_pop s).map
    (fun p => { p.2 with status := removeFlag (removeFlag p.1 BREAK) UNUSED })

/-- `php`: push a copy of the status byte with Break and Unused inserted;
the live status register is not changed. -/
def php (s : CPU) : Option CPU :=
  stack_push s (insertFlag (insertFlag s.status BREAK) UNUSED)

/-- `sbc` operand transform: `((data as i8).wrapping_neg().wrapping_sub(1))
as u8`.  All `i8` wrapping operations and the `u8`/`i8` reinterpreting
casts act on residues modulo 256, so the transform is the mod-256 value of
`-data - 1`. -/
def sbcOperand (data : Nat) : Nat := (256 - data % 256 + 255) % 256

/-- `sbc`: read the operand and feed its transform to
`add_to_register_a`. -/
def sbc (s : CPU) (mode : AddressingMode) : Option CPU := do
  let addr ← get_operand_address s mode
  let data ← mem_read s addr
  some (add_to_register_a s (sbcOperand data))

/-- `adc`: read the operand and feed it to `add_to_register_a`. -/
def adc (s : CPU) (mode : AddressingMode) : Option CPU := do
  let addr ← get_operand_address s mode
  let value ← mem_read s addr
  some (add_to_register_a s value)

/-- Written from the claim's wording, for comparison with the source's
`sbcOperand`: the operand "(−b − 1) mod 256". -/
def negMinusOneMod256 (b : Nat) : Nat := (((-(b : Int)) - 1) % 256).toNat

set_option maxRecDepth 4000 in
/-- The source's SBC operand transform agrees with the claim's
"(−b − 1) mod 256" on every byte. -/
theorem sbcOperand_eq_negMinusOne : ∀ b < 256, sbcOperand b = negMinusOneMod256 b := by
  decide

/-- C5: executing SBC with operand b produces exactly the same final
accumulator, Carry flag, and Overflow flag as executing ADC with operand
(−b − 1) mod 256 under the same starting state (hence the same carry-in):
both paths call `add_to_register_a`, and the SBC operand transform equals
(−b − 1) mod 256. -/
theorem sbc_equals_adc_of_negated_operand (s : CPU) (b : Nat) (hb : b < 256) :
    (add_to_register_a s (sbcOperand b)).register_a
      = (add_to_register_a s (negMinusOneMod256 b)).register_a ∧
    containsFlag (add_to_register_a s (sbcOperand b)).status CARRY
      = containsFlag (add_to_register_a s (negMinusOneMod256 b)).status CARRY ∧
    containsFlag (add_to_register_a s (sbcOperand b)).status OVERFLOW
      = containsFlag (add_to_register_a s (negMinusOneMod256 b)).status OVERFLOW := by
  rw [sbcOperand_eq_negMinusOne b hb]
  exact ⟨rfl, rfl, rfl⟩

/-- Witness for C5 at the concrete input a = 0x40, b = 0x10, carry set. -/
theorem sbc_equals_adc_witness :
    (add_to_register_a { cpu0 with register_a := 0x40, status := CARRY } (sbcOperand 0x10)).register_a
      = (add_to_register_a { cpu0 with register_a := 0x40, status := CARRY } (negMinusOneMod256 0x10)).register_a ∧
    containsFlag (add_to_register_a { cpu0 with register_a := 0x40, status := CARRY } (sbcOperand 0x10)).status CARRY
      = containsFlag (add_to_register_a { cpu0 with register_a := 0x40, status := CARRY } (negMinusOneMod256 0x10)).status CARRY ∧
    containsFlag (add_to_register_a { cpu0 with register_a := 0x40, status := CARRY } (sbcOperand 0x10)).status OVERFLOW
      = containsFlag (add_to_register_a { cpu0 with register_a := 0x40, status := CARRY } (negMinusOneMod256 0x10)).status OVERFLOW :=
  sbc_equals_adc_of_negated_operand { cpu0 with register_a := 0x40, status := CARRY } 0x10 (by decide)

/-- Round trip of the stack pointer: decrementing then incrementing with
`u8` wraparound is the identity on bytes. -/
theorem wadd8_wsub8_cancel (sp : Nat) (hsp : sp < 256) : wadd8 (wsub8 sp 1) 1 = sp := by
  simp only [wadd8, wsub8]
  omega

set_option maxRecDepth 4000 in
/-- Pushing the status with Break/Unused inserted and popping it with
Break/Unused removed amounts to clearing bits 4 and 5 (mask 0xCF). -/
theorem php_plp_status_mask :
    ∀ st < 256,
      removeFlag (removeFlag (insertFlag (insertFlag st BREAK) UNUSED) BREAK) UNUSED
        = st &&& 0xCF := by
  decide

/-- Bits of `st &&& 0xCF`: bits other than 4 and 5 are preserved, bits 4
and 5 are cleared. -/
theorem and_0xCF_testBit (st : Nat) (hst : st < 256) :
    (∀ i, i ≠ 4 → i ≠ 5 → (st &&& 0xCF).testBit i = st.testBit i) ∧
    (st &&& 0xCF).testBit 4 = false ∧ (st &&& 0xCF).testBit 5 = false := by
  refine ⟨?_, ?_, ?_⟩
  · intro i h4 h5
    rcases Nat.lt_or_ge i 8 with h | h
    · interval_cases i
      · rw [Nat.testBit_land, show Nat.testBit 207 0 = true from by decide, Bool.and_true]
      · rw [Nat.testBit_land, show Nat.testBit 207 1 = true from by decide, Bool.and_true]
      · rw [Nat.testBit_land, show Nat.testBit 207 2 = true from by decide, Bool.and_true]
      · rw [Nat.testBit_land, show Nat.testBit 207 3 = true from by decide, Bool.and_true]
      · exact absurd rfl h4
      · exact absurd rfl h5
      · rw [Nat.testBit_land, show Nat.testBit 207 6 = true from by decide, Bool.and_true]
      · rw [Nat.testBit_land, show Nat.testBit 207 7 = true from by decide, Bool.and_true]
    · have h1 : st.testBit i = false :=
        Nat.testBit_eq_false_of_lt
          (lt_of_lt_of_le hst (le_trans (by norm_num) (Nat.pow_le_pow_right (by norm_num) h)))
      rw [Nat.testBit_land, h1, Bool.false_and]
  · rw [Nat.testBit_land, show Nat.testBit 207 4 = false from by decide, Bool.and_false]
  · rw [Nat.testBit_land, show Nat.testBit 207 5 = false from by decide, Bool.and_false]

/-- C4: `php` pushes the status with Break and Unused forced to 1 while
leaving the live status register unchanged, and a following `plp` restores
every flag other than Break and Unused to its pre-push value and leaves
Break (bit 4) and Unused (bit 5) cleared in the live register. -/
theorem php_then_plp_restores_flags (s : CPU) (hst : s.status < 256)
    (hsp : s.stack_pointer < 256) :
    ∃ s₁ s₂, php s = some s₁ ∧ s₁.status = s.status ∧ plp s₁ = some s₂ ∧
      (∀ i, i ≠ 4 → i ≠ 5 → s₂.status.testBit i = s.status.testBit i) ∧
      s₂.status.testBit 4 = false ∧ s₂.status.testBit 5 = false := by
  have haddr : STACK + s.stack_pointer < 0xFFFF := by
    simp only [STACK]; omega
  have hc : wadd8 (wsub8 s.stack_pointer 1) 1 = s.stack_pointer :=
    wadd8_wsub8_cancel s.stack_pointer hsp
  have h1 : php s = some
      { s with
        memory := fun a =>
          if a = STACK + s.stack_pointer
          then insertFlag (insertFlag s.status BREAK) UNUSED else s.memory a,
        stack_pointer := wsub8 s.stack_pointer 1 } := by
    simp only [php, stack_push, mem_write, if_pos haddr, Option.map_some']
  refine ⟨{ s with
        memory := fun a =>
          if a = STACK + s.stack_pointer
          then insertFlag (insertFlag s.status BREAK) UNUSED else s.memory a,
        stack_pointer := wsub8 s.stack_pointer 1 },
      { s with
        memory := fun a =>
          if a = STACK + s.stack_pointer
          then insertFlag (insertFlag s.status BREAK) UNUSED else s.memory a,
        status := removeFlag
          (removeFlag (insertFlag (insertFlag s.status BREAK) UNUSED) BREAK) UNUSED },
      h1, rfl, ?_, ?_⟩
  · simp only [plp, stack_pop, mem_read, hc, haddr, if_true, Option.map_some']
  · show (∀ i, i ≠ 4 → i ≠ 5 →
        (removeFlag (removeFlag (insertFlag (insertFlag s.status BREAK) UNUSED)
          BREAK) UNUSED).testBit i = s.status.testBit i) ∧ _ ∧ _
    rw [php_plp_status_mask s.status hst]
    exact and_0xCF_testBit s.status hst

/-- Witness for C4 at status = 0xFF (all flags set) and stack pointer
0xFD. -/
theorem php_then_plp_witness :
    ∃ s₁ s₂, php { cpu0 with status := 0xFF, stack_pointer := 0xFD } = some s₁ ∧
      s₁.status = ({ cpu0 with status := 0xFF, stack_pointer := 0xFD } : CPU).status ∧
      plp s₁ = some s₂ ∧
      (∀ i, i ≠ 4 → i ≠ 5 →
        s₂.status.testBit i
          = ({ cpu0 with status := 0xFF, stack_pointer := 0xFD } : CPU).status.testBit i) ∧
      s₂.status.testBit 4 = false ∧ s₂.status.testBit 5 = false :=
  php_then_plp_restores_flags { cpu0 with status := 0xFF, stack_pointer := 0xFD }
    (by decide) (by decide)

/-- `tax`. -/
def tax (s : CPU) : CPU :=
  { s with register_x := s.register_a,
           status := update_zero_and_negative_flags s.status s.register_a }

/-- `inx`. -/
def inx (s : CPU) : CPU :=
  let x := wadd8 s.register_x 1
  { s with register_x := x, status := update_zero_and_negative_flags s.status x }

/-- `iny`. -/
def iny (s : CPU) : CPU :=
  let y := wadd8 s.register_y 1
  { s with register_y := y, status := update_zero_and_negative_flags s.status y }

/-- `dex`. -/
def dex (s : CPU) : CPU :=
  let x := wsub8 s.register_x 1
  { s with register_x := x, status := update_zero_and_negative_flags s.status x }

/-- `dey`. -/
def dey (s : CPU) : CPU :=
  let y := wsub8 s.register_y 1
  { s with register_y := y, status := update_zero_and_negative_flags s.status y }

/-- `and` (bitwise AND into the accumulator). -/
def andA (s : CPU) (mode : AddressingMode) : Option CPU := do
  let addr ← get_operand_address s mode
  let data ← mem_read s addr
  some (set_register_a s (data &&& s.register_a))

/-- `eor`. -/
def eor (s : CPU) (mode : AddressingMode) : Option CPU := do
  let addr ← get_operand_address s mode
  let data ← mem_read s addr
  some (set_register_a s (data ^^^ s.register_a))

/-- `ora`. -/
def ora (s : CPU) (mode : AddressingMode) : Option CPU := do
  let addr ← get_operand_address s mode
  let data ← mem_read s addr
  some (set_register_a s (data ||| s.register_a))

/-- `asl_accumulator`: carry from bit 7, shift left, store via
`set_register_a`. -/
def asl_accumulator (s : CPU) : CPU :=
  let data := s.register_a
  let s1 := if data >>> 7 = 1 then set_carry_flag s else clear_carry_flag s
  set_register_a s1 ((data <<< 1) % 256)

/-- `asl` (memory operand). -/
def asl (s : CPU) (mode : AddressingMode) : Option CPU := do
  let addr ← get_operand_address s mode
  let data ← mem_read s addr
  let s1 := if data >>> 7 = 1 then set_carry_flag s else clear_carry_flag s
  let d2 := (data <<< 1) % 256
  let s2 ← mem_write s1 addr d2
  some { s2 with status := update_zero_and_negative_flags s2.status d2 }

/-- `lsr_accumulator`. -/
def lsr_accumulator (s : CPU) : CPU :=
  let data := s.register_a
  let s1 := if data &&& 1 = 1 then set_carry_flag s else clear_carry_flag s
  set_register_a s1 (data >>> 1)

/-- `lsr` (memory operand). -/
def lsr (s : CPU) (mode : AddressingMode) : Option CPU := do
  let addr ← get_operand_address s mode
  let data ← mem_read s addr
  let s1 := if data &&& 1 = 1 then set_carry_flag s else clear_carry_flag s
  let d2 := data >>> 1
  let s2 ← mem_write s1 addr d2
  some { s2 with status := update_zero_and_negative_flags s2.status d2 }

/-- `rol` (memory operand): carry out of bit 7, previous carry into
bit 0. -/
def rol (s : CPU) (mode : AddressingMode) : Option CPU := do
  let addr ← get_operand_address s mode
  let data ← mem_read s addr
  let old_carry := containsFlag s.status CARRY
  let s1 := if data >>> 7 = 1 then set_carry_flag s else clear_carry_flag s
  let d2 := (data <<< 1) % 256
  let d3 := if old_carry then d2 ||| 1 else d2
  let s2 ← mem_write s1 addr d3
  some { s2 with status := update_zero_and_negative_flags s2.status d3 }

/-- `rol_accumulator`. -/
def rol_accumulator (s : CPU) : CPU :=
  let data := s.register_a
  let old_carry := containsFlag s.status CARRY
  let s1 := if data >>> 7 = 1 then set_carry_flag s else clear_carry_flag s
  let d2 := (data <<< 1) % 256
  let d3 := if old_carry then d2 ||| 1 else d2
  set_register_a s1 d3

/-- `ror` (memory operand): carry out of bit 0, previous carry into
bit 7. -/
def ror (s : CPU) (mode : AddressingMode) : Option CPU := do
  let addr ← get_operand_address s mode
  let data ← mem_read s addr
  let old_carry := containsFlag s.status CARRY
  let s1 := if data &&& 1 = 1 then set_carry_flag s else clear_carry_flag s
  let d2 := data >>> 1
  let d3 := if old_carry then d2 ||| 0b10000000 else d2
  let s2 ← mem_write s1 addr d3
  some { s2 with status := update_zero_and_negative_flags s2.status d3 }

/-- `ror_accumulator`. -/
def ror_accumulator (s : CPU) : CPU :=
  let data := s.register_a
  let old_carry := containsFlag s.status CARRY
  let s1 := if data &&& 1 = 1 then set_carry_flag s else clear_carry_flag s
  let d2 := data >>> 1
  let d3 := if old_carry then d2 ||| 0b10000000 else d2
  set_register_a s1 d3

/-- `inc` (memory operand). -/
def inc (s : CPU) (mode : AddressingMode) : Option CPU := do
  let addr ← get_operand_address s mode
  let data ← mem_read s addr
  let d2 := wadd8 data 1
  let s2 ← mem_write s addr d2
  some { s2 with status := update_zero_and_negative_flags s2.status d2 }

/-- `dec` (memory operand). -/
def dec (s : CPU) (mode : AddressingMode) : Option CPU := do
  let addr ← get_operand_address s mode
  let data ← mem_read s addr
  let d2 := wsub8 data 1
  let s2 ← mem_write s addr d2
  some { s2 with status := update_zero_and_negative_flags s2.status d2 }

/-- `bit`: Zero from the AND of accumulator and operand, Negative from
operand bit 7, Overflow from operand bit 6. -/
def bit (s : CPU) (mode : AddressingMode) : Option CPU := do
  let addr ← get_operand_address s mode
  let data ← mem_read s addr
  let and := s.register_a &&& data
  let st1 := if and = 0 then insertFlag s.status ZERO else removeFlag s.status ZERO
  let st2 := setFlag st1 NEGATIVE (data &&& 0b10000000 > 0)
  let st3 := setFlag st2 OVERFLOW (data &&& 0b01000000 > 0)
  some { s with status := st3 }

/-- `compare`: Carry iff `data <= compare_with`; Zero/Negative from the
wrapped difference `compare_with - data`. -/
def compare (s : CPU) (mode : AddressingMode) (compare_with : Nat) : Option CPU := do
  let addr ← get_operand_address s mode
  let data ← mem_read s addr
  let s1 := if data ≤ compare_with then set_carry_flag s else clear_carry_flag s
  some { s1 with status := update_zero_and_negative_flags s1.status (wsub8 compare_with data) }

/-- Sign extension of a byte reinterpreted as `i8` and widened to `u16`
(`jump as i8 as u16`). -/
def signExt8 (b : Nat) : Nat := if b < 128 then b else b + 0xFF00

/-- `branch`: when the condition holds, add the signed displacement byte
plus one to the program counter with `u16` wraparound. -/
def branch (s : CPU) (condition : Bool) : Option CPU :=
  if condition then do
    let jump ← mem_read s s.program_counter
    let jump_addr := wadd16 (wadd16 s.program_counter 1) (signExt8 jump)
    some { s with program_counter := jump_addr }
  else some s

/-- `reset`: zero the registers, reset the stack pointer, set the status
to `from_bits_truncate(0b100100)` and load the program counter from the
reset vector 0xFFFC/0xFFFD. -/
def reset (s : CPU) : Option CPU := do
  let s1 : CPU := { s with
    register_a := 0, register_x := 0, register_y := 0,
    stack_pointer := STACK_RESET, status := 0b100100 }
  let pc ← mem_read_u16 s1 0xFFFC
  some { s1 with program_counter := pc }

/-- C8: `reset` zeroes the three registers, sets stack pointer 0xFD, sets
the status to exactly Interrupt-Disable and Unused, loads the program
counter little-endian from 0xFFFC/0xFFFD, and changes no memory. -/
theorem reset_reinitializes (s : CPU) :
    reset s = some
      { register_a := 0, register_x := 0, register_y := 0,
        status := INTERRUPT_DISABLE ||| UNUSED,
        program_counter := ((s.memory 0xFFFD) <<< 8) ||| (s.memory 0xFFFC),
        stack_pointer := STACK_RESET,
        memory := s.memory } := by
  rfl

/-- The `JMP Indirect` (0x6C) arm of the dispatch match, taking the state
after the opcode fetch: read the pointer at the program counter; when its
low byte is 0xFF the target's high byte comes from the start of the same
page (`mem_address & 0xFF00`), reproducing the 6502 page-boundary bug;
otherwise a normal little-endian 16-bit read at the pointer. -/
def jmp_indirect (s : CPU) : Option CPU := do
  let mem_address ← mem_read_u16 s s.program_counter
  let indirect_ref ←
    if mem_address &&& 0x00FF = 0x00FF then do
      let lo ← mem_read s mem_address
      let hi ← mem_read s (mem_address &&& 0xFF00)
      some ((hi <<< 8) ||| lo)
    else mem_read_u16 s mem_address
  some { s with program_counter := indirect_ref }

/-- The `JMP Absolute` (0x4C) arm of the dispatch match. -/
def jmp_absolute (s : CPU) : Option CPU := do
  let mem_address ← mem_read_u16 s s.program_counter
  some { s with program_counter := mem_address }

/-- The `JSR` (0x20) arm: push `program_counter + 2 - 1`, then jump to the
absolute operand (read after the pushes, from the updated memory). -/
def jsr (s : CPU) : Option CPU := do
  let s1 ← stack_push_u16 s (wsub16 (wadd16 s.program_counter 2) 1)
  let target_address ← mem_read_u16 s1 s1.program_counter
  some { s1 with program_counter := target_address }

/-- The `RTS` (0x60) arm: pop a 16-bit address and add one. -/
def rts (s : CPU) : Option CPU := do
  let (v, s1) ← stack_pop_u16 s
  some { s1 with program_counter := wadd16 v 1 }

/-- The `RTI` (0x40) arm: pop the status (clearing Break, setting Unused),
then pop the program counter. -/
def rti (s : CPU) : Option CPU := do
  let (st, s1) ← stack_pop s
  let s2 : CPU := { s1 with status := insertFlag (removeFlag st BREAK) UNUSED }
  let (pc, s3) ← stack_pop_u16 s2
  some { s3 with program_counter := pc }

/-- C6: when the operand pointer of JMP-indirect has low byte 0xFF, the
target's low byte is read at the pointer and its high byte at the start of
the same 256-byte page (`ptr &&& 0xFF00`); for any other pointer the
target is the normal little-endian 16-bit read at the pointer. -/
theorem jmp_indirect_page_wrap (s : CPU) (ptr : Nat)
    (hptr : mem_read_u16 s s.program_counter = some ptr) :
    (ptr &&& 0xFF = 0xFF →
      ∀ lo hi, mem_read s ptr = some lo → mem_read s (ptr &&& 0xFF00) = some hi →
        jmp_indirect s = some { s with program_counter := (hi <<< 8) ||| lo }) ∧
    (ptr &&& 0xFF ≠ 0xFF →
      ∀ t, mem_read_u16 s ptr = some t →
        jmp_indirect s = some { s with program_counter := t }) := by
  constructor
  · intro hlow lo hi hlo hhi
    simp [jmp_indirect, hptr, hlow, hlo, hhi]
  · intro hlow t ht
    simp [jmp_indirect, hptr, hlow, ht]

/-- Concrete state for the C6 witness: the operand at 0x0600 holds the
pointer 0x30FF; 0x30FF holds 0x80, 0x3000 holds 0x50, 0x3100 holds
0x99 (the naive high-byte location, which must be ignored). -/
def cpuC6 : CPU :=
  { cpu0 with program_counter := 0x0600,
              memory := fun a =>
                if a = 0x0600 then 0xFF else if a = 0x0601 then 0x30 else
                if a = 0x30FF then 0x80 else if a = 0x3000 then 0x50 else
                if a = 0x3100 then 0x99 else 0 }

/-- Witness for C6: jumping through the pointer 0x30FF lands at 0x5080
(high byte from 0x3000, not 0x3100). -/
theorem jmp_indirect_page_wrap_witness :
    jmp_indirect cpuC6 = some { cpuC6 with program_counter := (0x50 <<< 8) ||| 0x80 } :=
  (jmp_indirect_page_wrap cpuC6 0x30FF rfl).1 rfl 0x80 0x50 rfl rfl

/-- Modelled from the spec: the external opcode metadata table
(`opcodes::OPCODES_MAP`, whose source file is not part of the core under
review) maps each supported opcode byte to its addressing-mode tag and
total encoded length in bytes (1–3); absence means unrecognised opcode.
Modes and lengths follow the spec's §3/§6 descriptions and the standard
6502 encoding (immediate/zero-page/indexed-zero-page/indirect forms are
2 bytes, absolute forms 3 bytes, implied and accumulator forms 1 byte,
branches 2 bytes, JMP/JSR 3 bytes). -/
def OPCODES_MAP (code : Nat) : Option (AddressingMode × Nat) :=
  match code with
  | 0xA9 | 0x69 | 0xE9 | 0x29 | 0x49 | 0x09 | 0xC9 | 0xC0 | 0xE0 | 0xA2
  | 0xA0 => some (AddressingMode.Immediate, 2)
  | 0xA5 | 0x65 | 0xE5 | 0x25 | 0x45 | 0x05 | 0x46 | 0x06 | 0x26 | 0x66
  | 0xE6 | 0xC6 | 0xC5 | 0xC4 | 0xE4 | 0x24 | 0x85 | 0x86 | 0x84 | 0xA6
  | 0xA4 => some (AddressingMode.ZeroPage, 2)
  | 0xB5 | 0x75 | 0xF5 | 0x35 | 0x55 | 0x15 | 0x56 | 0x16 | 0x36 | 0x76
  | 0xF6 | 0xD6 | 0xD5 | 0x95 | 0x94 | 0xB4 => some (AddressingMode.ZeroPage_X, 2)
  | 0xB6 | 0x96 => some (AddressingMode.ZeroPage_Y, 2)
  | 0xAD | 0x6D | 0xED | 0x2D | 0x4D | 0x0D | 0x4E | 0x0E | 0x2E | 0x6E
  | 0xEE | 0xCE | 0xCD | 0xCC | 0xEC | 0x2C | 0x8D | 0x8E | 0x8C | 0xAE
  | 0xAC => some (AddressingMode.Absolute, 3)
  | 0xBD | 0x7D | 0xFD | 0x3D | 0x5D | 0x1D | 0x5E | 0x1E | 0x3E | 0x7E
  | 0xFE | 0xDE | 0xDD | 0x9D | 0xBC => some (AddressingMode.Absolute_X, 3)
  | 0xB9 | 0x79 | 0xF9 | 0x39 | 0x59 | 0x19 | 0xD9 | 0x99
  | 0xBE => some (AddressingMode.Absolute_Y, 3)
  | 0xA1 | 0x61 | 0xE1 | 0x21 | 0x41 | 0x01 | 0xC1
  | 0x81 => some (AddressingMode.Indirect_X, 2)
  | 0xB1 | 0x71 | 0xF1 | 0x31 | 0x51 | 0x11 | 0xD1
  | 0x91 => some (AddressingMode.Indirect_Y, 2)
  | 0x00 | 0xAA | 0xE8 | 0xD8 | 0x58 | 0xB8 | 0x18 | 0x38 | 0x78 | 0xF8
  | 0x48 | 0x68 | 0x08 | 0x28 | 0x4A | 0x0A | 0x2A | 0x6A | 0xC8 | 0xCA
  | 0x88 | 0x60 | 0x40 | 0xEA | 0xA8 | 0xBA | 0x8A | 0x9A
  | 0x98 => some (AddressingMode.NoneAddressing, 1)
  | 0x4C | 0x6C | 0x20 => some (AddressingMode.NoneAddressing, 3)
  | 0xD0 | 0x70 | 0x50 | 0x10 | 0x30 | 0xF0 | 0xB0
  | 0x90 => some (AddressingMode.NoneAddressing, 2)
  | _ => none

/-- The body of the dispatch match of `run_with_callback` for every
opcode except the halting 0x00 arm, acting on the state after the opcode
fetch.  Codes falling through to the `todo!()` arm give `none`. -/
def execInstr (s : CPU) (code : Nat) (mode : AddressingMode) : Option CPU :=
  match code with
  | 0xA9 | 0xA5 | 0xB5 | 0xAD | 0xBD | 0xB9 | 0xA1 | 0xB1 => lda s mode
  | 0xAA => some (tax s)
  | 0xE8 => some (inx s)
  | 0xD8 => some { s with status := removeFlag s.status DECIMAL_MODE }
  | 0x58 => some { s with status := removeFlag s.status INTERRUPT_DISABLE }
  | 0xB8 => some { s with status := removeFlag s.status OVERFLOW }
  | 0x18 => some (clear_carry_flag s)
  | 0x38 => some (set_carry_flag s)
  | 0x78 => some { s with status := insertFlag s.status INTERRUPT_DISABLE }
  | 0xF8 => some { s with status := insertFlag s.status DECIMAL_MODE }
  | 0x48 => stack_push s s.register_a
  | 0x68 => pla s
  | 0x08 => php s
  | 0x28 => plp s
  | 0x69 | 0x65 | 0x75 | 0x6D | 0x7D | 0x79 | 0x61 | 0x71 => adc s mode
  | 0xE9 | 0xE5 | 0xF5 | 0xED | 0xFD | 0xF9 | 0xE1 | 0xF1 => sbc s mode
  | 0x29 | 0x25 | 0x35 | 0x2D | 0x3D | 0x39 | 0x21 | 0x31 => andA s mode
  | 0x49 | 0x45 | 0x55 | 0x4D | 0x5D | 0x59 | 0x41 | 0x51 => eor s mode
  | 0x09 | 0x05 | 0x15 | 0x0D | 0x1D | 0x19 | 0x01 | 0x11 => ora s mode
  | 0x4A => some (lsr_accumulator s)
  | 0x46 | 0x56 | 0x4E | 0x5E => lsr s mode
  | 0x0A => some (asl_accumulator s)
  | 0x06 | 0x16 | 0x0E | 0x1E => asl s mode
  | 0x2A => some (rol_accumulator s)
  | 0x26 | 0x36 | 0x2E | 0x3E => rol s mode
  | 0x6A => some (ror_accumulator s)
  | 0x66 | 0x76 | 0x6E | 0x7E => ror s mode
  | 0xE6 | 0xF6 | 0xEE | 0xFE => inc s mode
  | 0xC8 => some (iny s)
  | 0xC6 | 0xD6 | 0xCE | 0xDE => dec s mode
  | 0xCA => some (dex s)
  | 0x88 => some (dey s)
  | 0xC9 | 0xC5 | 0xD5 | 0xCD | 0xDD | 0xD9 | 0xC1 | 0xD1 =>
      compare s mode s.register_a
  | 0xC0 | 0xC4 | 0xCC => compare s mode s.register_y
  | 0xE0 | 0xE4 | 0xEC => compare s mode s.register_x
  | 0x4C => jmp_absolute s
  | 0x6C => jmp_indirect s
  | 0x20 => jsr s
  | 0x60 => rts s
  | 0x40 => rti s
  | 0xD0 => branch s (!containsFlag s.status ZERO)
  | 0x70 => branch s (containsFlag s.status OVERFLOW)
  | 0x50 => branch s (!containsFlag s.status OVERFLOW)
  | 0x10 => branch s (!containsFlag s.status NEGATIVE)
  | 0x30 => branch s (containsFlag s.status NEGATIVE)
  | 0xF0 => branch s (containsFlag s.status ZERO)
  | 0xB0 => branch s (containsFlag s.status CARRY)
  | 0x90 => branch s (!containsFlag s.status CARRY)
  | 0x24 | 0x2C => bit s mode
  | 0x85 | 0x95 | 0x8D | 0x9D | 0x99 | 0x81 | 0x91 => sta s mode
  | 0x86 | 0x96 | 0x8E => do
      let addr ← get_operand_address s mode
      mem_write s addr s.register_x
  | 0x84 | 0x94 | 0x8C => do
      let addr ← get_operand_address s mode
      mem_write s addr s.register_y
  | 0xA2 | 0xA6 | 0xB6 | 0xAE | 0xBE => ldx s mode
  | 0xA0 | 0xA4 | 0xB4 | 0xAC | 0xBC => ldy s mode
  | 0xEA => some s
  | 0xA8 => some { s with
      register_y := s.register_a,
      status := update_zero_and_negative_flags s.status s.register_a }
  | 0xBA => some { s with
      register_x := s.stack_pointer,
      status := update_zero_and_negative_flags s.status s.stack_pointer }
  | 0x8A => some { s with
      register_a := s.register_x,
      status := update_zero_and_negative_flags s.status s.register_x }
  | 0x9A => some { s with stack_pointer := s.register_x }
  | 0x98 => some { s with
      register_a := s.register_y,
      status := update_zero_and_negative_flags s.status s.register_y }
  | _ => none

/-- The result of one dispatch-loop iteration: either the loop continues
with a new state, or the 0x00 (break) arm returned. -/
inductive Outcome where
  | cont (s : CPU)
  | halt (s : CPU)

/-- The CPU state carried by an `Outcome`. -/
def Outcome.cpu : Outcome → CPU
  | Outcome.cont s => s
  | Outcome.halt s => s

/-- One iteration of the `run_with_callback` loop (without the
observation hook, which is an external side channel): fetch the opcode
and advance the program counter, record the post-fetch counter, look up
the opcode metadata (a fatal error when absent), return on 0x00, execute
the instruction, and advance the program counter by `len - 1` exactly
when the handler left it equal to the recorded value. -/
def step (s : CPU) : Option Outcome := do
  let code ← mem_read s s.program_counter
  let s1 : CPU := { s with program_counter := wadd16 s.program_counter 1 }
  let md ← OPCODES_MAP code
  if code = 0 then some (Outcome.halt s1)
  else do
    let s2 ← execInstr s1 code md.1
    if s1.program_counter = s2.program_counter then
      some (Outcome.cont { s2 with program_counter := wadd16 s2.program_counter (md.2 - 1) })
    else
      some (Outcome.cont s2)

/-- Concrete state for C7: at 0x0600 a `JMP Absolute` (0x4C) whose
operand is 0x0601 — the jump target equals the program counter recorded
just after the opcode fetch. -/
def cpuC7 : CPU :=
  { cpu0 with program_counter := 0x0600,
              memory := fun a =>
                if a = 0x0600 then 0x4C else if a = 0x0601 then 0x01 else
                if a = 0x0602 then 0x06 else 0 }

/-- C7 counterexample: executing the jump at `cpuC7` the handler (a
control-flow redirect) sets the program counter to 0x0601, which equals
the recorded post-fetch counter, so the dispatch loop applies the
length-based advance anyway and finishes at 0x0603 — the handler's new
program counter does not stand unchanged, refuting the claim's second
half at this input. -/
theorem step_advance_despite_jump :
    (step cpuC7).map (fun o => o.cpu.program_counter) = some 0x0603 ∧
    (execInstr { cpuC7 with program_counter := 0x0601 } 0x4C
        AddressingMode.NoneAddressing).map (fun s => s.program_counter) = some 0x0601 ∧
    (0x0603 : Nat) ≠ 0x0601 := by
  refine ⟨rfl, rfl, by decide⟩

/-- C7 amended: in every dispatch-loop step whose opcode is recognised
and not the halting 0x00, if the handler leaves the program counter equal
to the recorded post-fetch value the loop advances it by
`encoded_length − 1`, and the advance is skipped — the handler's program
counter standing unchanged — exactly when the handler's resulting
program counter differs from the recorded value (not whenever the
handler redirected control flow: a redirect landing on the recorded
value is still advanced). -/
theorem step_advances_iff_pc_untouched (s s₂ : CPU) (code : Nat)
    (md : AddressingMode × Nat)
    (h1 : mem_read s s.program_counter = some code)
    (h2 : OPCODES_MAP code = some md)
    (h3 : code ≠ 0)
    (h4 : execInstr { s with program_counter := wadd16 s.program_counter 1 }
        code md.1 = some s₂) :
    (s₂.program_counter = wadd16 s.program_counter 1 →
      step s = some (Outcome.cont
        { s₂ with program_counter := wadd16 s₂.program_counter (md.2 - 1) })) ∧
    (s₂.program_counter ≠ wadd16 s.program_counter 1 →
      step s = some (Outcome.cont s₂)) := by
  constructor
  · intro he
    simp [step, h1, h2, h3, h4, he]
  · intro hne
    simp [step, h1, h2, h3, h4, Ne.symm hne]

/-- Witness for the amended C7 at `cpuC7`: the handler's counter equals
the recorded value, so the final counter is 0x0601 + 2 = 0x0603. -/
theorem step_advances_iff_pc_untouched_witness :
    step cpuC7 = some (Outcome.cont { cpuC7 with program_counter := 0x0603 }) := by
  exact (step_advances_iff_pc_untouched cpuC7
    { cpuC7 with program_counter := 0x0601 } 0x4C (AddressingMode.NoneAddressing, 3)
    rfl rfl (by decide) rfl).1 rfl

/-- Concrete state for C9: the program counter sits at 0xFFFF with
benign contents everywhere (every cell holds 0xEA, the NOP opcode). -/
def cpuC9 : CPU :=
  { cpu0 with program_counter := 0xFFFF, memory := fun _ => 0xEA }

/-- C9: the claim says the opcode fetch at program_counter = 0xFFFF
completes and wraps; in the code, `mem_read(0xFFFF)` indexes the
65535-byte memory array out of bounds and panics (and the `+=` fetch
advance is an unchecked add), so the step fails instead of wrapping. -/
theorem fetch_at_0xFFFF_panics :
    step cpuC9 = none ∧ mem_read cpuC9 cpuC9.program_counter = none := by
  refine ⟨rfl, rfl⟩

/-- C10: `stack_push` writes exactly one byte at `STACK + stack_pointer`
(an address in 0x0100 ..= 0x01FF) leaving all other memory unchanged, and
`stack_pop` reads only the address `STACK + (stack_pointer + 1 mod 256)`
in the same page and leaves memory unchanged; the stack pointer keeps
wrapping within 8 bits. -/
theorem stack_ops_stay_in_stack_page (s : CPU) (d : Nat)
    (hsp : s.stack_pointer < 256) :
    (∃ s', stack_push s d = some s' ∧
      STACK ≤ STACK + s.stack_pointer ∧ STACK + s.stack_pointer ≤ 0x01FF ∧
      s'.memory (STACK + s.stack_pointer) = d ∧
      (∀ a, a ≠ STACK + s.stack_pointer → s'.memory a = s.memory a) ∧
      s'.stack_pointer < 256) ∧
    (∃ v s'', stack_pop s = some (v, s'') ∧
      v = s.memory (STACK + wadd8 s.stack_pointer 1) ∧
      STACK ≤ STACK + wadd8 s.stack_pointer 1 ∧
      STACK + wadd8 s.stack_pointer 1 ≤ 0x01FF ∧
      s''.memory = s.memory ∧ s''.stack_pointer < 256) := by
  have haddr : STACK + s.stack_pointer < 0xFFFF := by
    simp only [STACK]; omega
  have hsp1 : wadd8 s.stack_pointer 1 < 256 := Nat.mod_lt _ (by norm_num)
  have haddr2 : STACK + wadd8 s.stack_pointer 1 < 0xFFFF := by
    simp only [STACK]; omega
  constructor
  · refine ⟨{ s with
        memory := fun a => if a = STACK + s.stack_pointer then d else s.memory a,
        stack_pointer := wsub8 s.stack_pointer 1 }, ?_, ?_, ?_, ?_, ?_, ?_⟩
    · simp only [stack_push, mem_write, if_pos haddr, Option.map_some']
    · exact Nat.le_add_right _ _
    · simp only [STACK]; omega
    · show (if STACK + s.stack_pointer = STACK + s.stack_pointer
        then d else s.memory (STACK + s.stack_pointer)) = d
      rw [if_pos rfl]
    · intro a ha
      show (if a = STACK + s.stack_pointer then d else s.memory a) = s.memory a
      rw [if_neg ha]
    · exact Nat.mod_lt _ (by norm_num)
  · refine ⟨s.memory (STACK + wadd8 s.stack_pointer 1),
      { s with stack_pointer := wadd8 s.stack_pointer 1 }, ?_, rfl, ?_, ?_, rfl, hsp1⟩
    · simp only [stack_pop, mem_read, if_pos haddr2, Option.map_some']
    · exact Nat.le_add_right _ _
    · simp only [STACK]; omega

/-- Witness for C10 at the all-zero state (stack pointer 0, exercising
the wraparound of the push decrement) with data byte 0x7E. -/
theorem stack_ops_stay_in_stack_page_witness :
    (∃ s', stack_push cpu0 0x7E = some s' ∧
      STACK ≤ STACK + cpu0.stack_pointer ∧ STACK + cpu0.stack_pointer ≤ 0x01FF ∧
      s'.memory (STACK + cpu0.stack_pointer) = 0x7E ∧
      (∀ a, a ≠ STACK + cpu0.stack_pointer → s'.memory a = cpu0.memory a) ∧
      s'.stack_pointer < 256) ∧
    (∃ v s'', stack_pop cpu0 = some (v, s'') ∧
      v = cpu0.memory (STACK + wadd8 cpu0.stack_pointer 1) ∧
      STACK ≤ STACK + wadd8 cpu0.stack_pointer 1 ∧
      STACK + wadd8 cpu0.stack_pointer 1 ≤ 0x01FF ∧
      s''.memory = cpu0.memory ∧ s''.stack_pointer < 256) :=
  stack_ops_stay_in_stack_page cpu0 0x7E (by decide)
